import Mathlib

/-!
Shallow embedding of the proxy-panel migration script (src/migration.py) and
proofs about its credential synthesis, record reconciliation, placeholder
rewriting, counter bookkeeping and startup/abort control flow.

Machine integers are modelled as `Nat`; Python numbers that flow through true
division are modelled as `Rat`; random sources (`secrets.choice`,
`uuid.uuid4`) are modelled as explicit oracles passed in as functions, so
every definition stays executable.
-/

namespace Migration

/-! ### Python `uuid.UUID` string validation (migration.py lines 122-130)

`uuid.UUID(value)` normalises the string as
`value.replace(urn-colon, empty).replace(uuid-colon, empty)` then strips
leading/trailing braces and removes hyphens, and accepts the result iff
exactly 32 hexadecimal digits remain. -/

/-- Remove every left-to-right non-overlapping occurrence of the four
characters of the text `urn:` (the effect of the first Python `replace` with
an empty replacement; removed junctions are not rescanned, matching Python). -/
def removeUrn : List Char → List Char
  | 'u' :: 'r' :: 'n' :: ':' :: rest => removeUrn rest
  | c :: rest => c :: removeUrn rest
  | [] => []

/-- Remove every left-to-right non-overlapping occurrence of the five
characters of the text `uuid:` (the second Python `replace`). -/
def removeUuidColon : List Char → List Char
  | 'u' :: 'u' :: 'i' :: 'd' :: ':' :: rest => removeUuidColon rest
  | c :: rest => c :: removeUuidColon rest
  | [] => []

/-- A character stripped by Python `strip` over the brace pair. -/
def isBraceChar (c : Char) : Bool := c = '{' || c = '}'

/-- Python `strip` limited to braces: drop leading and trailing braces. -/
def stripBraces (s : List Char) : List Char :=
  ((s.dropWhile isBraceChar).reverse.dropWhile isBraceChar).reverse

/-- A hexadecimal digit (either case), as accepted by Python `int(h, 16)`. -/
def isHexDigitChar (c : Char) : Bool :=
  c.isDigit || (97 ≤ c.toNat && c.toNat ≤ 102) || (65 ≤ c.toNat && c.toNat ≤ 70)

/-- The candidate hex-digit list that `uuid.UUID(value)` checks: prefixes
removed, braces stripped, hyphens removed. -/
def uuidHexDigits (value : String) : List Char :=
  (stripBraces (removeUuidColon (removeUrn value.toList))).filter (fun c => c ≠ '-')

/-- `is_valid_uuid` (migration.py lines 122-130): false for the empty string,
otherwise true iff `uuid.UUID(value)` accepts the value, i.e. the normalised
form is exactly 32 hex digits. -/
def is_valid_uuid (value : String) : Bool :=
  if value = "" then false
  else
    let h := uuidHexDigits value
    h.length = 32 && h.all isHexDigitChar

/-! ### `generate_password` (migration.py lines 116-120) -/

/-- `string.ascii_letters + string.digits`: the 62-symbol password alphabet. -/
def passwordAlphabet : List Char :=
  "abcdefghijklmnopqrstuvwxyzABCDEFGHIJKLMNOPQRSTUVWXYZ0123456789".toList

/-- `generate_password(min_length)` (migration.py lines 116-120): one
character per draw of `secrets.choice(alphabet)`; the secure random draws are
supplied by the oracle `choice`. -/
def generate_password (choice : Nat → Fin 62) (min_length : Nat) : String :=
  String.mk ((List.range min_length).map (fun i => passwordAlphabet.getD (choice i).val 'a'))

/-! ### `str(uuid.uuid4())` -/

/-- The sixteen lowercase hex digits. -/
def hexAlphabet : List Char := "0123456789abcdef".toList

/-- One hex digit (indices above 15 do not occur; the default keeps the
function total). -/
def hexChar (n : Nat) : Char := hexAlphabet.getD n '0'

/-- One byte rendered as two lowercase hex characters. -/
def byteHex (b : Nat) : List Char := [hexChar (b / 16 % 16), hexChar (b % 16)]

/-- `str(uuid.uuid4())` as a character list, built from the sixteen random
bytes `r 0 .. r 15` (reduced mod 256): byte 6 has its high nibble forced to 4
(the version) and byte 8 its two top bits forced to `10` (the variant), and
the bytes are rendered in the canonical 8-4-4-4-12 hyphenated form. -/
def uuid4_chars (r : Nat → Nat) : List Char :=
  let b : Nat → Nat := fun i => r i % 256
  byteHex (b 0) ++ byteHex (b 1) ++ byteHex (b 2) ++ byteHex (b 3) ++ ['-'] ++
  byteHex (b 4) ++ byteHex (b 5) ++ ['-'] ++
  byteHex ((b 6 &&& 15) ||| 64) ++ byteHex (b 7) ++ ['-'] ++
  byteHex ((b 8 &&& 63) ||| 128) ++ byteHex (b 9) ++ ['-'] ++
  byteHex (b 10) ++ byteHex (b 11) ++ byteHex (b 12) ++ byteHex (b 13) ++
  byteHex (b 14) ++ byteHex (b 15)

/-- `str(uuid.uuid4())` with random bytes drawn from the oracle `r`. -/
def uuid4_str (r : Nat → Nat) : String := String.mk (uuid4_chars r)

/-! ### The stored `proxy_settings` credential bundle -/

/-- The `proxy_settings` JSON object, flattened to the fields the script reads
and writes. `none` models an absent key (entry missing, or nested key missing,
or a JSON null). -/
structure ProxySettings where
  vmess_id : Option String
  vless_id : Option String
  vless_flow : Option String
  trojan_password : Option String
  ss_password : Option String
  ss_method : Option String
deriving DecidableEq, Repr

/-- The empty bundle: a user row whose stored `proxy_settings` is NULL or
empty parses to the empty object (migration.py lines 362-365). -/
def ProxySettings.empty : ProxySettings := ⟨none, none, none, none, none, none⟩

/-- The rebuilt credential bundle (migration.py lines 401-406 and 463-468):
vmess and vless share the unique id, vless carries the fixed flow constant,
trojan and shadowsocks carry their passwords and the fixed method constant. -/
def buildBundle (valid_uuid trojan_password ss_password : String) : ProxySettings :=
  { vmess_id := some valid_uuid
    vless_id := some valid_uuid
    vless_flow := some "xtls-rprx-vision"
    trojan_password := some trojan_password
    ss_password := some ss_password
    ss_method := some "chacha20-ietf-poly1305" }

/-! ### Credential synthesis on the two upsert paths -/

/-- Update-path unique-id selection (migration.py lines 373-384). Returns the
selected id together with the contribution to `needs_update`, which the code
sets only in the fresh-generation branch. A `vmess`/`vless` entry that is
missing, or whose own `id` key is missing, reads as the empty string through
`.get` and fails `is_valid_uuid`. `rand` supplies the `uuid.uuid4()` bytes. -/
def updateUuidSelection (client_id : String) (ps : ProxySettings) (rand : Nat → Nat) :
    String × Bool :=
  if is_valid_uuid client_id then (client_id, false)
  else if is_valid_uuid (ps.vmess_id.getD "") then (ps.vmess_id.getD "", false)
  else if is_valid_uuid (ps.vless_id.getD "") then (ps.vless_id.getD "", false)
  else (uuid4_str rand, true)

/-- Insert-path unique-id selection (migration.py lines 452-456): the legacy
id when valid, else a fresh `uuid.uuid4()`. -/
def insertUuidSelection (client_id : String) (rand : Nat → Nat) : String :=
  if is_valid_uuid client_id then client_id else uuid4_str rand

/-- Update-path secret check (migration.py lines 386-391 for shadowsocks,
392-397 for trojan): the stored password is regenerated when the entry or the
password is missing, the password is empty (Python falsy), or it is shorter
than 22 characters; otherwise it is kept. Returns the secret together with
the contribution to `needs_update`. -/
def ensurePassword (existing : Option String) (choice : Nat → Fin 62) : String × Bool :=
  match existing with
  | none => (generate_password choice 22, true)
  | some p =>
    if p = "" || p.length < 22 then (generate_password choice 22, true)
    else (p, false)

/-- Result of the update-path credential reconciliation. -/
structure UpdateCredsResult where
  bundle : ProxySettings
  valid_uuid : String
  needs_update : Bool
deriving DecidableEq, Repr

/-- The full update-path credential reconciliation (migration.py lines
370-406): unique-id selection, both password checks, and the wholesale bundle
rebuild performed exactly when `needs_update` was set; when it was not, the
stored bundle is written back unchanged. -/
def updateCreds (client_id : String) (ps : ProxySettings) (rand : Nat → Nat)
    (ssChoice trojanChoice : Nat → Fin 62) : UpdateCredsResult :=
  let u := updateUuidSelection client_id ps rand
  let ss := ensurePassword ps.ss_password ssChoice
  let tr := ensurePassword ps.trojan_password trojanChoice
  let needs_update := u.2 || ss.2 || tr.2
  { bundle := if needs_update then buildBundle u.1 tr.1 ss.1 else ps
    valid_uuid := u.1
    needs_update := needs_update }

/-! ### Status, expiry and quota fields -/

/-- Update-path status (migration.py line 409). -/
def updateStatus (enabled : Bool) : String := if enabled then "active" else "disabled"

/-- Insert-path status (migration.py line 471). -/
def insertStatus (enabled : Bool) : String := if enabled then "active" else "disabled"

/-- Update-path expiry normalisation (migration.py lines 410-414): the seconds
value handed to `datetime.fromtimestamp` for the `expire` column, or `none`
(SQL NULL) when the guard `expiry_time and expiry_time > 0` fails and no
conversion runs. Values above 10000000000 are divided by 1000 first. -/
def updateExpireSeconds (expiry_time : Rat) : Option Rat :=
  if expiry_time ≠ 0 ∧ expiry_time > 0 then
    some (if expiry_time > 10000000000 then expiry_time / 1000 else expiry_time)
  else none

/-- Insert-path expiry normalisation (migration.py lines 473-478), the same
computation textually repeated on the insert path. -/
def insertExpireSeconds (expiry_time : Rat) : Option Rat :=
  if expiry_time ≠ 0 ∧ expiry_time > 0 then
    some (if expiry_time > 10000000000 then expiry_time / 1000 else expiry_time)
  else none

/-! ### IEEE-754 double rounding (Python float arithmetic)

The quota conversions on lines 279 and 416/480 run in Python floats: the
mathematically exact quotient or product is rounded to the nearest
double-precision value (53 significant bits, ties to even). The exponent
range is modelled as unbounded — no overflow and no subnormals — which is
accurate for every magnitude a byte count or quota reaches here. -/

/-- Round a rational to the nearest integer, ties to even. -/
def roundHalfEven (x : Rat) : Int :=
  if x - ⌊x⌋ < 1 / 2 then ⌊x⌋
  else if 1 / 2 < x - ⌊x⌋ then ⌊x⌋ + 1
  else if ⌊x⌋ % 2 = 0 then ⌊x⌋ else ⌊x⌋ + 1

/-- Round a positive rational to 53 significant bits: scale into the mantissa
range by the power of two given by the base-2 logarithm, round the mantissa
to an integer (ties to even), and scale back. -/
def roundPosToDouble (x : Rat) : Rat :=
  (roundHalfEven (x * (2 : Rat) ^ ((52 : Int) - Int.log 2 x)) : Rat) *
    (2 : Rat) ^ (Int.log 2 x - (52 : Int))

/-- Round an exact rational to the nearest double-precision value. -/
def roundToDouble (q : Rat) : Rat :=
  if q = 0 then 0
  else if q < 0 then -roundPosToDouble (-q)
  else roundPosToDouble q

/-- Python float division: the exact quotient, correctly rounded to double
precision. -/
def floatDiv (a b : Rat) : Rat := roundToDouble (a / b)

/-- Python float multiplication: the exact product, correctly rounded to
double precision. -/
def floatMul (a b : Rat) : Rat := roundToDouble (a * b)

/-- Update-path `data_limit` (migration.py line 416): GB back to bytes by a
Python float multiplication, NULL for a Python-falsy (zero) quota. -/
def updateTrafficLimit (total_gb : Rat) : Option Rat :=
  if total_gb ≠ 0 then some (floatMul total_gb (1024 ^ 3)) else none

/-- Insert-path `data_limit` (migration.py line 480), textually the same. -/
def insertTrafficLimit (total_gb : Rat) : Option Rat :=
  if total_gb ≠ 0 then some (floatMul total_gb (1024 ^ 3)) else none

/-! ### Record extraction (migration.py lines 252-293) -/

/-- One client object from an inbound settings JSON; `none` models a missing
key, so the `.get` defaults of lines 264-268 apply. -/
structure ClientJson where
  email : Option String
  id : Option String
  enable : Option Bool
  expiryTime : Option Rat
  totalGB : Option Rat
deriving DecidableEq, Repr

/-- One row of `client_traffics` joined on `(inbound_id, email)`. -/
structure TrafficRow where
  up : Nat
  down : Nat
  expiry_time : Rat
  total : Rat
deriving DecidableEq, Repr

/-- The canonical per-user record appended to `clients_data`. -/
structure ClientRecord where
  email : String
  client_id : String
  enable : Bool
  expiry_time : Rat
  total_gb : Rat
  up : Nat
  down : Nat
deriving DecidableEq, Repr

/-- Canonical-record construction for one client of one inbound
(migration.py lines 263-293): `.get` defaults for the five inline fields,
then the traffic-row override — when a `client_traffics` row matched, its
up/down are taken, its expiry/total override the inline values when non-zero
(Python truthiness), and `total` is converted from bytes to GB on line 279 by
a Python float true division; with no matching row, up/down default to 0. -/
def extractClient (c : ClientJson) (traffic : Option TrafficRow) : ClientRecord :=
  let email := c.email.getD ""
  let client_id := c.id.getD ""
  let enable := c.enable.getD true
  let expiry_time := c.expiryTime.getD 0
  let total_gb := c.totalGB.getD 0
  match traffic with
  | some t =>
    { email := email
      client_id := client_id
      enable := enable
      expiry_time := if t.expiry_time ≠ 0 then t.expiry_time else expiry_time
      total_gb := if t.total ≠ 0 then floatDiv t.total (1024 ^ 3) else total_gb
      up := t.up
      down := t.down }
  | none =>
    { email := email
      client_id := client_id
      enable := enable
      expiry_time := expiry_time
      total_gb := total_gb
      up := 0
      down := 0 }

/-! ### Run counters and the per-record upsert step (migration.py lines 328-543) -/

/-- The four run-level counters. -/
structure Counters where
  imported : Nat
  updated : Nat
  skipped : Nat
  errors : Nat
deriving DecidableEq, Repr

/-- Sum of the four counters (the `Всего обработано` line 560). -/
def Counters.total (c : Counters) : Nat := c.imported + c.updated + c.skipped + c.errors

/-- Which counter one loop iteration increments. -/
inductive CounterTick
  | imported
  | updated
  | skipped
  | errors
deriving DecidableEq, Repr

/-- Apply one increment. -/
def Counters.bump : Counters → CounterTick → Counters
  | c, .imported => { c with imported := c.imported + 1 }
  | c, .updated => { c with updated := c.updated + 1 }
  | c, .skipped => { c with skipped := c.skipped + 1 }
  | c, .errors => { c with errors := c.errors + 1 }

/-- One statement executed against the target (pasarguard) store. -/
inductive StoreOp
  | selectUserByName (username : String)
  | selectProxySettings (user_id : Nat)
  | updateUser (user_id : Nat) (status : String) (used_traffic : Nat)
      (data_limit : Option Rat) (expire : Option Rat) (bundle : ProxySettings)
  | insertUser (username : String) (status : String) (used_traffic : Nat)
      (data_limit : Option Rat) (expire : Option Rat) (admin_id : Nat)
      (bundle : ProxySettings)
  | insertGroupAssoc (user_id : Nat) (group_id : Nat)
deriving DecidableEq, Repr

/-- Whether the try-block body of the current path raises an exception. -/
inductive RecordOutcome
  | ok
  | exn
deriving DecidableEq, Repr

/-- One iteration of the upsert loop (migration.py lines 337-543): which
counter is incremented and which target-store statements run. `existing` is
the username lookup result (`none` = no row, otherwise the row id and its
stored `proxy_settings`, `none` for a NULL/empty value). `outcome` says
whether the try-block body of the taken path raises; the statements listed
for the `exn` case are the ones already issued outside the try block, the
in-try ones that ran before the exception are not modelled. `group_id` and
`new_user_id` are `none` for a Python-falsy value (missing group row,
missing inserted-row id), in which case the best-effort group association is
not attempted. -/
def processRecord (r : ClientRecord)
    (existing : Option (Nat × Option ProxySettings))
    (rand : Nat → Nat) (ssChoice trojanChoice : Nat → Fin 62)
    (admin_id : Nat) (group_id : Option Nat) (new_user_id : Option Nat)
    (outcome : RecordOutcome) : CounterTick × List StoreOp :=
  if r.email = "" then (.skipped, [])
  else
    match existing with
    | some (user_id, stored) =>
      match outcome with
      | .exn => (.errors, [StoreOp.selectUserByName r.email])
      | .ok =>
        let ps := stored.getD ProxySettings.empty
        let creds := updateCreds r.client_id ps rand ssChoice trojanChoice
        (.updated,
          [StoreOp.selectUserByName r.email,
           StoreOp.selectProxySettings user_id,
           StoreOp.updateUser user_id (updateStatus r.enable) (r.up + r.down)
             (updateTrafficLimit r.total_gb) (updateExpireSeconds r.expiry_time)
             creds.bundle])
    | none =>
      match outcome with
      | .exn => (.errors, [StoreOp.selectUserByName r.email])
      | .ok =>
        let vu := insertUuidSelection r.client_id rand
        let bundle :=
          buildBundle vu (generate_password trojanChoice 22) (generate_password ssChoice 22)
        let assocOps : List StoreOp :=
          match group_id, new_user_id with
          | some g, some uid => [StoreOp.insertGroupAssoc uid g]
          | _, _ => []
        (.imported,
          [StoreOp.selectUserByName r.email,
           StoreOp.insertUser r.email (insertStatus r.enable) (r.up + r.down)
             (insertTrafficLimit r.total_gb) (insertExpireSeconds r.expiry_time)
             admin_id bundle] ++ assocOps)

/-! ### Startup and abort control flow (migration.py lines 207-224, 301-311) -/

/-- Events on the startup path. -/
inductive RunEvent
  | closeXui
  | closePasar
  | exitProc (code : Nat)
  | proceed
deriving DecidableEq, Repr

/-- Startup control flow (migration.py lines 207-224 and 301-311): the
close/exit events before row processing. `connectOk` is whether both
`DatabaseConnection` constructions succeed (an unsupported backend kind
raises inside the same try block); `adminFound` is whether
`SELECT id FROM admins LIMIT 1` returns a row. On connection failure the
script prints and calls `exit(1)` directly; on a missing administrator it
closes both connections and then calls `exit(1)`. -/
def startupEvents (connectOk adminFound : Bool) : List RunEvent :=
  if !connectOk then [RunEvent.exitProc 1]
  else if !adminFound then [RunEvent.closeXui, RunEvent.closePasar, RunEvent.exitProc 1]
  else [RunEvent.proceed]

/-! ### Placeholder rewriting in `DatabaseConnection.execute`
(migration.py lines 67-80) -/

/-- A quote character, as written in the character class of the regex on
line 76 (double quote or single quote, code point 39). -/
def isQuoteChar (c : Char) : Bool := c = '"' || c.toNat = 39

/-- Negative lookbehind: the character before the match, if any, is not a
quote. -/
def noQuoteBefore : Option Char → Bool
  | none => true
  | some c => !(isQuoteChar c)

/-- Negative lookahead: the character after the match, if any, is not a
quote. -/
def noQuoteAfter : List Char → Bool
  | [] => true
  | c :: _ => !(isQuoteChar c)

/-- The scan performed by `re.sub` with the pattern of line 76: left to
right, an occurrence of `%s` is replaced by `?` exactly when the original
character immediately before it is not a quote and the original character
immediately after it is not a quote; scanning resumes after the occurrence.
`prev` is the character before the current position. -/
def rewriteChars : Option Char → List Char → List Char
  | _, [] => []
  | prev, '%' :: 's' :: rest =>
    if noQuoteBefore prev && noQuoteAfter rest then
      '?' :: rewriteChars (some 's') rest
    else
      '%' :: 's' :: rewriteChars (some 's') rest
  | _, c :: rest => c :: rewriteChars (some c) rest

/-- `DatabaseConnection.execute` placeholder adaptation (migration.py lines
67-80): when parameters are present (Python-truthy) and the backend is the
embedded `sqlite` engine, the query goes through the regex substitution;
for `postgresql`/`postgres` and `mysql`/`mariadb` (and when no parameters
are passed) the query string reaches the driver unchanged. -/
def executeQuery (db_type : String) (hasParams : Bool) (query : String) : String :=
  if hasParams then
    if db_type = "sqlite" then String.mk (rewriteChars none query.toList) else query
  else query

/-- The single-quote character (code point 39) as a string, used to spell out
queries containing quoted literals. -/
def squote : String := String.mk [Char.ofNat 39]

/-! ### Helper lemmas about the UUID machinery -/

theorem removeUrn_cons_of_ne (c : Char) (rest : List Char) (h : c ≠ 'u') :
    removeUrn (c :: rest) = c :: removeUrn rest := by
  rw [removeUrn.eq_def]
  split
  · rename_i rest2 heq
    injection heq with h1 h2
    exact absurd h1 h
  · rename_i x c2 rest2 hne heq
    injection heq with h1 h2
    subst h1
    subst h2
    rfl
  · rename_i x heq
    exact absurd heq (List.cons_ne_nil c rest)

theorem removeUrn_eq_self {l : List Char} (h : ∀ c ∈ l, c ≠ 'u') : removeUrn l = l := by
  induction l with
  | nil => rfl
  | cons c rest ih =>
    rw [removeUrn_cons_of_ne c rest (h c (List.mem_cons_self c rest))]
    rw [ih (fun x hx => h x (List.mem_cons_of_mem c hx))]

theorem removeUuidColon_cons_of_ne (c : Char) (rest : List Char) (h : c ≠ 'u') :
    removeUuidColon (c :: rest) = c :: removeUuidColon rest := by
  rw [removeUuidColon.eq_def]
  split
  · rename_i rest2 heq
    injection heq with h1 h2
    exact absurd h1 h
  · rename_i x c2 rest2 hne heq
    injection heq with h1 h2
    subst h1
    subst h2
    rfl
  · rename_i x heq
    exact absurd heq (List.cons_ne_nil c rest)

theorem removeUuidColon_eq_self {l : List Char} (h : ∀ c ∈ l, c ≠ 'u') :
    removeUuidColon l = l := by
  induction l with
  | nil => rfl
  | cons c rest ih =>
    rw [removeUuidColon_cons_of_ne c rest (h c (List.mem_cons_self c rest))]
    rw [ih (fun x hx => h x (List.mem_cons_of_mem c hx))]

theorem dropWhile_eq_self_of {p : Char → Bool} {l : List Char}
    (h : ∀ c ∈ l, p c = false) : l.dropWhile p = l := by
  cases l with
  | nil => rfl
  | cons c rest =>
    rw [List.dropWhile_cons, if_neg (by simp [h c (List.mem_cons_self c rest)])]

theorem stripBraces_eq_self {l : List Char} (h : ∀ c ∈ l, isBraceChar c = false) :
    stripBraces l = l := by
  unfold stripBraces
  rw [dropWhile_eq_self_of h,
    dropWhile_eq_self_of (fun c hc => h c (List.mem_reverse.mp hc)),
    List.reverse_reverse]

theorem hexChar_mem (n : Nat) : hexChar n ∈ hexAlphabet := by
  unfold hexChar
  rw [List.getD_eq_getElem?_getD]
  cases h : hexAlphabet[n]? with
  | none => simp only [Option.getD_none]; decide
  | some c =>
    simp only [Option.getD_some]
    obtain ⟨hlt, rfl⟩ := List.getElem?_eq_some_iff.mp h
    exact List.getElem_mem hlt

theorem hexAlphabet_props :
    ∀ c ∈ hexAlphabet,
      isHexDigitChar c = true ∧ c ≠ '-' ∧ c ≠ 'u' ∧ isBraceChar c = false := by
  decide

theorem byteHex_mem (b : Nat) : ∀ c ∈ byteHex b, c ∈ hexAlphabet := by
  intro c hc
  rcases List.mem_cons.mp hc with h | h
  · subst h
    exact hexChar_mem _
  · rcases List.mem_cons.mp h with h2 | h2
    · subst h2
      exact hexChar_mem _
    · exact absurd h2 (List.not_mem_nil c)

theorem uuid4_chars_mem (r : Nat → Nat) :
    ∀ c ∈ uuid4_chars r, c ∈ hexAlphabet ∨ c = '-' := by
  intro c hc
  simp only [uuid4_chars, List.mem_append, List.mem_singleton, or_assoc] at hc
  rcases hc with h|h|h|h|h|h|h|h|h|h|h|h|h|h|h|h|h|h|h|h <;>
    first
      | exact Or.inl (byteHex_mem _ c h)
      | exact Or.inr h

theorem uuid4_chars_no_u (r : Nat → Nat) : ∀ c ∈ uuid4_chars r, c ≠ 'u' := by
  intro c hc
  rcases uuid4_chars_mem r c hc with h | h
  · exact (hexAlphabet_props c h).2.2.1
  · subst h
    decide

theorem uuid4_chars_no_brace (r : Nat → Nat) :
    ∀ c ∈ uuid4_chars r, isBraceChar c = false := by
  intro c hc
  rcases uuid4_chars_mem r c hc with h | h
  · exact (hexAlphabet_props c h).2.2.2
  · subst h
    decide

theorem uuid4_chars_length (r : Nat → Nat) : (uuid4_chars r).length = 36 := by
  simp [uuid4_chars, byteHex]

theorem filter_byteHex (b : Nat) :
    (byteHex b).filter (fun c => c ≠ '-') = byteHex b := by
  have h1 := (hexAlphabet_props _ (hexChar_mem (b / 16 % 16))).2.1
  have h2 := (hexAlphabet_props _ (hexChar_mem (b % 16))).2.1
  simp [byteHex, List.filter_cons, h1, h2]

theorem uuid4_filter_length (r : Nat → Nat) :
    ((uuid4_chars r).filter (fun c => c ≠ '-')).length = 32 := by
  have hd : (['-'] : List Char).filter (fun c => c ≠ '-') = [] := by decide
  simp only [uuid4_chars, List.filter_append, filter_byteHex, hd]
  simp [byteHex]

theorem uuid4_filter_all (r : Nat → Nat) :
    ((uuid4_chars r).filter (fun c => c ≠ '-')).all isHexDigitChar = true := by
  rw [List.all_eq_true]
  intro c hc
  have hmem := List.mem_of_mem_filter hc
  have hp := List.of_mem_filter hc
  rcases uuid4_chars_mem r c hmem with h | h
  · exact (hexAlphabet_props c h).1
  · subst h
    simp at hp

theorem uuid4_valid (r : Nat → Nat) : is_valid_uuid (uuid4_str r) = true := by
  have hne : uuid4_str r ≠ "" := by
    intro h
    have h36 := uuid4_chars_length r
    have hnil : uuid4_chars r = [] := congrArg String.data h
    rw [hnil] at h36
    simp at h36
  have hdig : uuidHexDigits (uuid4_str r) = (uuid4_chars r).filter (fun c => c ≠ '-') := by
    unfold uuidHexDigits
    have htl : (uuid4_str r).toList = uuid4_chars r := rfl
    rw [htl, removeUrn_eq_self (uuid4_chars_no_u r),
      removeUuidColon_eq_self (uuid4_chars_no_u r),
      stripBraces_eq_self (uuid4_chars_no_brace r)]
  unfold is_valid_uuid
  rw [if_neg hne]
  simp only [hdig, uuid4_filter_length r, uuid4_filter_all r]
  simp

set_option maxRecDepth 4000 in
theorem nibble_four : ∀ y < 256, hexChar (((y &&& 15) ||| 64) / 16 % 16) = '4' := by
  decide

theorem uuid4_version_char (r : Nat → Nat) : (uuid4_chars r)[14]? = some '4' := by
  have hb : r 6 % 256 < 256 := Nat.mod_lt _ (by norm_num)
  simp only [uuid4_chars, byteHex, List.cons_append, List.nil_append]
  rw [nibble_four (r 6 % 256) hb]
  rfl

/-! ### Helper lemmas about password generation -/

theorem getD_mem_of_default_mem {l : List Char} {d : Char} (hd : d ∈ l) (n : Nat) :
    l.getD n d ∈ l := by
  rw [List.getD_eq_getElem?_getD]
  cases h : l[n]? with
  | none => simpa using hd
  | some c =>
    simp only [Option.getD_some]
    obtain ⟨hlt, rfl⟩ := List.getElem?_eq_some_iff.mp h
    exact List.getElem_mem hlt

theorem generate_password_length (choice : Nat → Fin 62) (n : Nat) :
    (generate_password choice n).length = n := by
  show (List.map (fun i => passwordAlphabet.getD (choice i).val 'a') (List.range n)).length = n
  simp

theorem generate_password_mem (choice : Nat → Fin 62) (n : Nat) :
    ∀ c ∈ (generate_password choice n).toList, c ∈ passwordAlphabet := by
  intro c hc
  have htl : (generate_password choice n).toList =
      (List.range n).map (fun i => passwordAlphabet.getD (choice i).val 'a') := rfl
  rw [htl] at hc
  obtain ⟨i, hi, rfl⟩ := List.mem_map.mp hc
  exact getD_mem_of_default_mem (by decide) _

theorem passwordAlphabet_facts :
    passwordAlphabet.length = 62 ∧ ∀ c ∈ passwordAlphabet, c.isAlphanum = true := by
  decide

/-! ### Helper lemmas about double rounding -/

theorem roundHalfEven_intCast (n : Int) : roundHalfEven (n : Rat) = n := by
  unfold roundHalfEven
  rw [Int.floor_intCast]
  norm_num

theorem roundPosToDouble_dyadic (m : Nat) (k : Int) (hm0 : 0 < m)
    (hm : m < 2 ^ 53) :
    roundPosToDouble ((m : Rat) * (2 : Rat) ^ k) = (m : Rat) * (2 : Rat) ^ k := by
  have h2ne : (2 : Rat) ≠ 0 := by norm_num
  have hx0 : (0 : Rat) < (m : Rat) * (2 : Rat) ^ k :=
    mul_pos (by exact_mod_cast hm0) (zpow_pos (by norm_num) k)
  have hlt : (m : Rat) * (2 : Rat) ^ k < ((2 : Nat) : Rat) ^ (k + 53) := by
    have hm53 : (m : Rat) < (2 : Rat) ^ (53 : Nat) := by exact_mod_cast hm
    calc (m : Rat) * (2 : Rat) ^ k
        < (2 : Rat) ^ (53 : Nat) * (2 : Rat) ^ k :=
          (mul_lt_mul_right (zpow_pos (by norm_num) k)).mpr hm53
      _ = ((2 : Nat) : Rat) ^ (k + 53) := by
          push_cast
          rw [← zpow_natCast (2 : Rat) 53, ← zpow_add₀ h2ne]
          congr 1
          omega
  have hlog : Int.log 2 ((m : Rat) * (2 : Rat) ^ k) < k + 53 :=
    (Int.lt_zpow_iff_log_lt (by norm_num) hx0).mp hlt
  unfold roundPosToDouble
  set e := Int.log 2 ((m : Rat) * (2 : Rat) ^ k) with he
  have hj : (0 : Int) ≤ k + 52 - e := by omega
  have hcast : (((m * 2 ^ (k + 52 - e).toNat : Nat) : Int) : Rat) =
      (m : Rat) * (2 : Rat) ^ ((k + 52 - e).toNat : Nat) := by
    push_cast
    ring
  have hscaled : (m : Rat) * (2 : Rat) ^ k * (2 : Rat) ^ ((52 : Int) - e) =
      (((m * 2 ^ (k + 52 - e).toNat : Nat) : Int) : Rat) := by
    rw [hcast, ← zpow_natCast (2 : Rat) ((k + 52 - e).toNat),
      Int.toNat_of_nonneg hj, mul_assoc, ← zpow_add₀ h2ne]
    congr 2
    omega
  rw [hscaled, roundHalfEven_intCast, hcast,
    ← zpow_natCast (2 : Rat) ((k + 52 - e).toNat), Int.toNat_of_nonneg hj,
    mul_assoc, ← zpow_add₀ h2ne]
  congr 2
  omega

theorem roundToDouble_dyadic (m : Nat) (k : Int) (hm0 : 0 < m)
    (hm : m < 2 ^ 53) :
    roundToDouble ((m : Rat) * (2 : Rat) ^ k) = (m : Rat) * (2 : Rat) ^ k := by
  have hx0 : (0 : Rat) < (m : Rat) * (2 : Rat) ^ k :=
    mul_pos (by exact_mod_cast hm0) (zpow_pos (by norm_num) k)
  unfold roundToDouble
  rw [if_neg (ne_of_gt hx0), if_neg (not_lt.mpr (le_of_lt hx0))]
  exact roundPosToDouble_dyadic m k hm0 hm

theorem roundToDouble_natCast (n : Nat) (h0 : 0 < n) (h53 : n ≤ 2 ^ 53) :
    roundToDouble (n : Rat) = (n : Rat) := by
  rcases lt_or_eq_of_le h53 with hlt | heq
  · have h := roundToDouble_dyadic n 0 h0 hlt
    simpa using h
  · subst heq
    have h : ((2 ^ 53 : Nat) : Rat) = ((1 : Nat) : Rat) * (2 : Rat) ^ (53 : Int) := by
      push_cast
      norm_num
    rw [h, roundToDouble_dyadic 1 53 (by norm_num) (by norm_num)]

theorem roundToDouble_nat_div_pow30 (n : Nat) (h0 : 0 < n) (h53 : n ≤ 2 ^ 53) :
    roundToDouble ((n : Rat) / 2 ^ 30) = (n : Rat) / 2 ^ 30 := by
  rcases lt_or_eq_of_le h53 with hlt | heq
  · have hdiv : (n : Rat) / 2 ^ 30 = (n : Rat) * (2 : Rat) ^ (-(30 : Int)) := by
      rw [zpow_neg, div_eq_mul_inv]
      congr 2
      rw [← zpow_natCast (2 : Rat) 30]
      norm_num
    rw [hdiv]
    exact roundToDouble_dyadic n (-30) h0 hlt
  · subst heq
    have h : ((2 ^ 53 : Nat) : Rat) / 2 ^ 30 =
        ((1 : Nat) : Rat) * (2 : Rat) ^ (23 : Int) := by
      push_cast
      norm_num
    rw [h, roundToDouble_dyadic 1 23 (by norm_num) (by norm_num)]

theorem floatMul_one_gb : floatMul 1 (1024 ^ 3) = 2 ^ 30 := by
  unfold floatMul
  have h : (1 : Rat) * 1024 ^ 3 = ((2 ^ 30 : Nat) : Rat) := by
    push_cast
    norm_num
  rw [h, roundToDouble_natCast (2 ^ 30) (by norm_num) (by norm_num)]
  norm_cast

theorem floatDiv_gb_one : floatDiv ((2 : Rat) ^ 30) (1024 ^ 3) = 1 := by
  unfold floatDiv
  have h : (2 : Rat) ^ 30 / 1024 ^ 3 = ((1 : Nat) : Rat) := by
    push_cast
    norm_num
  rw [h, roundToDouble_natCast 1 (by norm_num) (by norm_num)]
  norm_cast

theorem roundHalfEven_tie_pow52 :
    roundHalfEven ((2 ^ 53 + 1 : Rat) / 2) = 2 ^ 52 := by
  have hfl : ⌊(2 ^ 53 + 1 : Rat) / 2⌋ = 2 ^ 52 := by
    rw [Int.floor_eq_iff]
    constructor
    · push_cast
      norm_num
    · push_cast
      norm_num
  unfold roundHalfEven
  rw [hfl]
  have hfrac : (2 ^ 53 + 1 : Rat) / 2 - ((2 ^ 52 : Int) : Rat) = 1 / 2 := by
    push_cast
    norm_num
  rw [hfrac]
  norm_num

theorem floatDiv_two_pow53_succ :
    floatDiv ((2 : Rat) ^ 53 + 1) (1024 ^ 3) = 2 ^ 23 := by
  have hq : ((2 : Rat) ^ 53 + 1) / 1024 ^ 3 = (2 ^ 53 + 1 : Rat) / 2 ^ 30 := by
    norm_num
  have hpos : (0 : Rat) < (2 ^ 53 + 1 : Rat) / 2 ^ 30 := by positivity
  have hlog : Int.log 2 ((2 ^ 53 + 1 : Rat) / 2 ^ 30) = 23 := by
    have h1 : (23 : Int) ≤ Int.log 2 ((2 ^ 53 + 1 : Rat) / 2 ^ 30) := by
      refine (Int.zpow_le_iff_le_log (by norm_num) hpos).mp ?_
      push_cast
      norm_num
    have h2 : Int.log 2 ((2 ^ 53 + 1 : Rat) / 2 ^ 30) < 24 := by
      refine (Int.lt_zpow_iff_log_lt (by norm_num) hpos).mp ?_
      push_cast
      norm_num
    omega
  unfold floatDiv roundToDouble
  rw [hq, if_neg (ne_of_gt hpos), if_neg (not_lt.mpr (le_of_lt hpos))]
  unfold roundPosToDouble
  rw [hlog]
  have hscaled : (2 ^ 53 + 1 : Rat) / 2 ^ 30 * (2 : Rat) ^ ((52 : Int) - 23) =
      (2 ^ 53 + 1 : Rat) / 2 := by
    rw [show (52 : Int) - 23 = ((29 : Nat) : Int) from by norm_num,
      zpow_natCast]
    norm_num
  rw [hscaled, roundHalfEven_tie_pow52]
  push_cast
  norm_num

theorem insertLimit_two_pow23 :
    insertTrafficLimit ((2 : Rat) ^ 23) = some (2 ^ 53) := by
  unfold insertTrafficLimit
  rw [if_pos (by norm_num : (2 : Rat) ^ 23 ≠ 0)]
  congr 1
  unfold floatMul
  have h : (2 : Rat) ^ 23 * 1024 ^ 3 = ((2 ^ 53 : Nat) : Rat) := by
    push_cast
    norm_num
  rw [h, roundToDouble_natCast (2 ^ 53) (by norm_num) (le_refl _)]
  norm_cast

/-! ### Claim theorems -/

/-- C1: every call that synthesizes the unique identifier returns the legacy
identifier exactly unchanged when it is a syntactically valid UUID string;
otherwise, on the update path, a valid UUID stored under the bundle entry
vmess is reused, else one stored under vless, and otherwise (and always on
the insert path) a freshly generated random version-4 UUID string is
produced (it is itself a valid UUID and its version character is 4). -/
theorem uuid_selection_legacy_bundle_fresh (client_id : String) (ps : ProxySettings)
    (rand : Nat → Nat) :
    (is_valid_uuid client_id = true →
      (updateUuidSelection client_id ps rand).1 = client_id ∧
      insertUuidSelection client_id rand = client_id) ∧
    (is_valid_uuid client_id = false →
      insertUuidSelection client_id rand = uuid4_str rand ∧
      (∀ v, ps.vmess_id = some v → is_valid_uuid v = true →
        (updateUuidSelection client_id ps rand).1 = v) ∧
      (is_valid_uuid (ps.vmess_id.getD "") = false →
        ∀ v, ps.vless_id = some v → is_valid_uuid v = true →
          (updateUuidSelection client_id ps rand).1 = v) ∧
      (is_valid_uuid (ps.vmess_id.getD "") = false →
        is_valid_uuid (ps.vless_id.getD "") = false →
        (updateUuidSelection client_id ps rand).1 = uuid4_str rand)) ∧
    is_valid_uuid (uuid4_str rand) = true ∧
    (uuid4_chars rand)[14]? = some '4' := by
  refine ⟨?_, ?_, uuid4_valid rand, uuid4_version_char rand⟩
  · intro h
    unfold updateUuidSelection insertUuidSelection
    rw [if_pos h, if_pos h]
    exact ⟨rfl, rfl⟩
  · intro h
    have hn : ¬ is_valid_uuid client_id = true := by simp [h]
    refine ⟨by unfold insertUuidSelection; rw [if_neg hn], ?_, ?_, ?_⟩
    · intro v hv hvv
      unfold updateUuidSelection
      rw [if_neg hn, if_pos (by rw [hv]; exact hvv)]
      simp [hv]
    · intro hm v hv hvv
      unfold updateUuidSelection
      rw [if_neg hn, if_neg (by simp [hm]), if_pos (by rw [hv]; exact hvv)]
      simp [hv]
    · intro hm hl
      unfold updateUuidSelection
      rw [if_neg hn, if_neg (by simp [hm]), if_neg (by simp [hl])]

/-- Witness for C1 at concrete inputs: a valid legacy UUID is kept verbatim,
a valid vmess bundle UUID is reused, and with nothing valid the fresh
version-4 UUID is taken. -/
theorem uuid_selection_legacy_bundle_fresh_witness :
    (updateUuidSelection "d290f1ee-6c54-4b01-90e6-d701748f0851"
      ProxySettings.empty (fun _ => 0)).1 = "d290f1ee-6c54-4b01-90e6-d701748f0851" ∧
    (updateUuidSelection "not-a-uuid"
      ⟨some "11111111-2222-4333-8444-555555555555", none, none, none, none, none⟩
      (fun _ => 0)).1 = "11111111-2222-4333-8444-555555555555" ∧
    (updateUuidSelection "not-a-uuid" ProxySettings.empty (fun _ => 0)).1 =
      uuid4_str (fun _ => 0) := by
  refine ⟨?_, ?_, ?_⟩
  · exact ((uuid_selection_legacy_bundle_fresh _ ProxySettings.empty _).1 (by decide)).1
  · exact ((uuid_selection_legacy_bundle_fresh _ _ _).2.1 (by decide)).2.1 _ rfl (by decide)
  · exact ((uuid_selection_legacy_bundle_fresh _ _ _).2.1 (by decide)).2.2.2
      (by decide) (by decide)

/-- C2: an existing secret value is returned unchanged iff it is present and
at least 22 characters long; otherwise the freshly generated replacement has
exactly 22 characters, each drawn from the 62-symbol alphanumeric
alphabet. -/
theorem ensure_secret_valid_iff (existing : Option String) (choice : Nat → Fin 62) :
    (∀ p, existing = some p →
      ((ensurePassword existing choice).1 = p ↔ 22 ≤ p.length)) ∧
    (existing = none →
      (ensurePassword existing choice).1 = generate_password choice 22) ∧
    (∀ p, existing = some p → p.length < 22 →
      (ensurePassword existing choice).1 = generate_password choice 22) ∧
    (generate_password choice 22).length = 22 ∧
    (∀ c ∈ (generate_password choice 22).toList,
      c ∈ passwordAlphabet ∧ c.isAlphanum = true) ∧
    passwordAlphabet.length = 62 := by
  have hg := generate_password_length choice 22
  refine ⟨?_, ?_, ?_, hg, ?_, passwordAlphabet_facts.1⟩
  · intro p hp
    subst hp
    simp only [ensurePassword]
    by_cases hlen : 22 ≤ p.length
    · have hne : p ≠ "" := by
        intro h
        subst h
        exact absurd hlen (by decide)
      rw [if_neg (by simp [hne, Nat.not_lt.mpr hlen])]
      simp [hlen]
    · rw [if_pos (by simp [Nat.lt_of_not_le hlen])]
      constructor
      · intro h
        rw [← h, hg]
      · intro h
        exact absurd h hlen
  · intro h
    subst h
    rfl
  · intro p hp hlen
    subst hp
    simp only [ensurePassword]
    rw [if_pos (by simp [hlen])]
  · intro c hc
    exact ⟨generate_password_mem choice 22 c hc,
      passwordAlphabet_facts.2 c (generate_password_mem choice 22 c hc)⟩

theorem updateUuidSelection_snd (client_id : String) (ps : ProxySettings)
    (rand : Nat → Nat) :
    (updateUuidSelection client_id ps rand).2 = true ↔
      (is_valid_uuid client_id = false ∧
       is_valid_uuid (ps.vmess_id.getD "") = false ∧
       is_valid_uuid (ps.vless_id.getD "") = false) := by
  cases h1 : is_valid_uuid client_id with
  | true => simp [updateUuidSelection, h1]
  | false =>
    cases h2 : is_valid_uuid (ps.vmess_id.getD "") with
    | true => simp [updateUuidSelection, h1, h2]
    | false =>
      cases h3 : is_valid_uuid (ps.vless_id.getD "") with
      | true => simp [updateUuidSelection, h1, h2, h3]
      | false => simp [updateUuidSelection, h1, h2, h3]

theorem ensurePassword_snd (existing : Option String) (choice : Nat → Fin 62) :
    (ensurePassword existing choice).2 = true ↔
      ¬ ∃ p, existing = some p ∧ 22 ≤ p.length := by
  cases existing with
  | none => simp [ensurePassword]
  | some p =>
    by_cases hlen : 22 ≤ p.length
    · have hne : p ≠ "" := by
        intro h
        subst h
        exact absurd hlen (by decide)
      simp only [ensurePassword]
      rw [if_neg (by simp [hne, Nat.not_lt.mpr hlen])]
      simp [hlen]
    · simp only [ensurePassword]
      rw [if_pos (by simp [Nat.lt_of_not_le hlen])]
      simp [hlen]

/-- Witness for C2 at concrete inputs: a 22-character secret is kept, a short
secret and a missing secret are replaced by the generated one. -/
theorem ensure_secret_valid_iff_witness :
    (ensurePassword (some "abcdefghijklmnopqrstuv") (fun _ => (0 : Fin 62))).1 =
      "abcdefghijklmnopqrstuv" ∧
    (ensurePassword (some "short") (fun _ => (0 : Fin 62))).1 =
      generate_password (fun _ => (0 : Fin 62)) 22 ∧
    (ensurePassword none (fun _ => (0 : Fin 62))).1 =
      generate_password (fun _ => (0 : Fin 62)) 22 := by
  refine ⟨?_, ?_, ?_⟩
  · exact ((ensure_secret_valid_iff _ _).1 _ rfl).mpr (by decide)
  · exact (ensure_secret_valid_iff _ _).2.2.1 _ rfl (by decide)
  · exact (ensure_secret_valid_iff _ _).2.1 rfl

/-- C3 counterexample: with an invalid legacy identifier, a valid UUID stored
under vmess, and two valid stored secrets, the final unique identifier is not
taken verbatim from the legacy identifier, yet `needs_update` stays false and
the bundle is not rebuilt — refuting the claim that any id not taken verbatim
from the legacy identifier sets the flag. -/
theorem bundle_reuse_leaves_flag_clear :
    let ps : ProxySettings :=
      ⟨some "11111111-2222-4333-8444-555555555555", none, none,
       some "abcdefghijklmnopqrstuv", some "abcdefghijklmnopqrstuv",
       some "chacha20-ietf-poly1305"⟩
    let res := updateCreds "not-a-uuid" ps (fun _ => 0)
      (fun _ => (0 : Fin 62)) (fun _ => (0 : Fin 62))
    res.valid_uuid ≠ "not-a-uuid" ∧ res.needs_update = false ∧ res.bundle = ps := by
  decide

/-- C3 (amended): on the update path the regeneration flag is set exactly when
the unique identifier was freshly generated (legacy identifier invalid and no
valid UUID under vmess or vless) or either stored secret failed its validity
check; reusing a bundle UUID alone does not set it. Whenever the flag is set
the full bundle is rebuilt wholesale from the selected identifier and the two
ensured secrets, and when it is clear the stored bundle is left untouched. -/
theorem needs_update_iff_regeneration (client_id : String) (ps : ProxySettings)
    (rand : Nat → Nat) (ssChoice trojanChoice : Nat → Fin 62) :
    ((updateCreds client_id ps rand ssChoice trojanChoice).needs_update = true ↔
      ((is_valid_uuid client_id = false ∧
        is_valid_uuid (ps.vmess_id.getD "") = false ∧
        is_valid_uuid (ps.vless_id.getD "") = false) ∨
       ¬ (∃ p, ps.ss_password = some p ∧ 22 ≤ p.length) ∨
       ¬ (∃ p, ps.trojan_password = some p ∧ 22 ≤ p.length))) ∧
    ((updateCreds client_id ps rand ssChoice trojanChoice).needs_update = true →
      (updateCreds client_id ps rand ssChoice trojanChoice).bundle =
        buildBundle (updateUuidSelection client_id ps rand).1
          (ensurePassword ps.trojan_password trojanChoice).1
          (ensurePassword ps.ss_password ssChoice).1) ∧
    ((updateCreds client_id ps rand ssChoice trojanChoice).needs_update = false →
      (updateCreds client_id ps rand ssChoice trojanChoice).bundle = ps) := by
  refine ⟨?_, ?_, ?_⟩
  · simp only [updateCreds, Bool.or_eq_true]
    rw [updateUuidSelection_snd, ensurePassword_snd, ensurePassword_snd, or_assoc]
  · intro h
    simp only [updateCreds] at h ⊢
    rw [if_pos h]
  · intro h
    simp only [updateCreds] at h ⊢
    rw [if_neg (by simp [h])]

/-- Witness for the amended C3: with everything invalid the flag is set and
the bundle is rebuilt; at the counterexample input the flag is clear and the
stored bundle is written back unchanged. -/
theorem needs_update_iff_regeneration_witness :
    (updateCreds "not-a-uuid" ProxySettings.empty (fun _ => 0)
      (fun _ => (0 : Fin 62)) (fun _ => (0 : Fin 62))).bundle =
      buildBundle
        (updateUuidSelection "not-a-uuid" ProxySettings.empty (fun _ => 0)).1
        (ensurePassword none (fun _ => (0 : Fin 62))).1
        (ensurePassword none (fun _ => (0 : Fin 62))).1 ∧
    (updateCreds "not-a-uuid"
      ⟨some "11111111-2222-4333-8444-555555555555", none, none,
       some "abcdefghijklmnopqrstuv", some "abcdefghijklmnopqrstuv",
       some "chacha20-ietf-poly1305"⟩ (fun _ => 0)
      (fun _ => (0 : Fin 62)) (fun _ => (0 : Fin 62))).bundle =
      ⟨some "11111111-2222-4333-8444-555555555555", none, none,
       some "abcdefghijklmnopqrstuv", some "abcdefghijklmnopqrstuv",
       some "chacha20-ietf-poly1305"⟩ := by
  constructor
  · exact (needs_update_iff_regeneration _ _ _ _ _).2.1 (by decide)
  · exact (needs_update_iff_regeneration _ _ _ _ _).2.2 (by decide)

theorem bump_total (c : Counters) (t : CounterTick) :
    (c.bump t).total = c.total + 1 := by
  cases t <;> simp [Counters.bump, Counters.total] <;> omega

/-- C4: every consumed canonical record increments exactly one of the four
counters exactly once — the total rises by exactly one, and the incremented
counter is skipped for an empty email, updated/errors for an existing row
according to success/exception, and imported/errors for a new row according
to success/exception. -/
theorem each_record_one_counter (r : ClientRecord)
    (existing : Option (Nat × Option ProxySettings)) (rand : Nat → Nat)
    (ssChoice trojanChoice : Nat → Fin 62) (admin_id : Nat)
    (group_id new_user_id : Option Nat) (outcome : RecordOutcome) (c : Counters) :
    (c.bump (processRecord r existing rand ssChoice trojanChoice admin_id
      group_id new_user_id outcome).1).total = c.total + 1 ∧
    (r.email = "" →
      (processRecord r existing rand ssChoice trojanChoice admin_id
        group_id new_user_id outcome).1 = CounterTick.skipped) ∧
    (r.email ≠ "" → ∀ x, existing = some x →
      (outcome = RecordOutcome.ok →
        (processRecord r existing rand ssChoice trojanChoice admin_id
          group_id new_user_id outcome).1 = CounterTick.updated) ∧
      (outcome = RecordOutcome.exn →
        (processRecord r existing rand ssChoice trojanChoice admin_id
          group_id new_user_id outcome).1 = CounterTick.errors)) ∧
    (r.email ≠ "" → existing = none →
      (outcome = RecordOutcome.ok →
        (processRecord r existing rand ssChoice trojanChoice admin_id
          group_id new_user_id outcome).1 = CounterTick.imported) ∧
      (outcome = RecordOutcome.exn →
        (processRecord r existing rand ssChoice trojanChoice admin_id
          group_id new_user_id outcome).1 = CounterTick.errors)) := by
  refine ⟨bump_total c _, ?_, ?_, ?_⟩
  · intro he
    simp [processRecord, he]
  · intro he x hx
    subst hx
    obtain ⟨uid, st⟩ := x
    constructor
    · intro ho
      subst ho
      simp [processRecord, he]
    · intro ho
      subst ho
      simp [processRecord, he]
  · intro he hx
    subst hx
    constructor
    · intro ho
      subst ho
      simp [processRecord, he]
    · intro ho
      subst ho
      simp [processRecord, he]

/-- Witness for C4 at concrete inputs: an empty-email record ticks skipped,
an existing row ticks updated on success and errors on exception, a new row
ticks imported on success and errors on exception, each raising the total by
one. -/
theorem each_record_one_counter_witness :
    (Counters.mk 0 0 0 0).bump
      ((processRecord ⟨"", "x", true, 0, 0, 0, 0⟩ none (fun _ => 0)
        (fun _ => (0 : Fin 62)) (fun _ => (0 : Fin 62)) 1 none none
        RecordOutcome.ok).1) = Counters.mk 0 0 1 0 ∧
    (processRecord ⟨"a@x.com", "x", true, 0, 0, 0, 0⟩
      (some (7, none)) (fun _ => 0) (fun _ => (0 : Fin 62))
      (fun _ => (0 : Fin 62)) 1 none none RecordOutcome.ok).1 =
      CounterTick.updated ∧
    (processRecord ⟨"a@x.com", "x", true, 0, 0, 0, 0⟩
      (some (7, none)) (fun _ => 0) (fun _ => (0 : Fin 62))
      (fun _ => (0 : Fin 62)) 1 none none RecordOutcome.exn).1 =
      CounterTick.errors ∧
    (processRecord ⟨"a@x.com", "x", true, 0, 0, 0, 0⟩
      none (fun _ => 0) (fun _ => (0 : Fin 62))
      (fun _ => (0 : Fin 62)) 1 none none RecordOutcome.ok).1 =
      CounterTick.imported ∧
    (processRecord ⟨"a@x.com", "x", true, 0, 0, 0, 0⟩
      none (fun _ => 0) (fun _ => (0 : Fin 62))
      (fun _ => (0 : Fin 62)) 1 none none RecordOutcome.exn).1 =
      CounterTick.errors := by
  refine ⟨?_, ?_, ?_, ?_, ?_⟩
  · rw [(each_record_one_counter ⟨"", "x", true, 0, 0, 0, 0⟩ none (fun _ => 0)
      (fun _ => (0 : Fin 62)) (fun _ => (0 : Fin 62)) 1 none none
      RecordOutcome.ok (Counters.mk 0 0 0 0)).2.1 rfl]
    rfl
  · exact (((each_record_one_counter _ _ _ _ _ _ _ _ _
      (Counters.mk 0 0 0 0)).2.2.1 (by decide) _ rfl).1 rfl)
  · exact (((each_record_one_counter _ _ _ _ _ _ _ _ _
      (Counters.mk 0 0 0 0)).2.2.1 (by decide) _ rfl).2 rfl)
  · exact (((each_record_one_counter _ _ _ _ _ _ _ _ _
      (Counters.mk 0 0 0 0)).2.2.2 (by decide) rfl).1 rfl)
  · exact (((each_record_one_counter _ _ _ _ _ _ _ _ _
      (Counters.mk 0 0 0 0)).2.2.2 (by decide) rfl).2 rfl)

/-- C5: an expiry value above 10000000000 is divided by 1000 before the
calendar conversion, a positive value at or below the threshold is converted
as seconds unchanged, and a zero (or absent, which extraction defaults to
zero) expiry yields a null expire field with no conversion; the insert path
applies the identical rule. -/
theorem expiry_threshold_rule (e : Rat) :
    (10000000000 < e → updateExpireSeconds e = some (e / 1000)) ∧
    (0 < e → e ≤ 10000000000 → updateExpireSeconds e = some e) ∧
    (e = 0 → updateExpireSeconds e = none) ∧
    insertExpireSeconds e = updateExpireSeconds e := by
  refine ⟨?_, ?_, ?_, rfl⟩
  · intro h
    have hpos : 0 < e := lt_trans (by norm_num) h
    unfold updateExpireSeconds
    rw [if_pos ⟨ne_of_gt hpos, hpos⟩, if_pos h]
  · intro hpos hle
    unfold updateExpireSeconds
    rw [if_pos ⟨ne_of_gt hpos, hpos⟩, if_neg (not_lt.mpr hle)]
  · intro h
    subst h
    simp [updateExpireSeconds]

/-- Witness for C5 at concrete inputs: a milliseconds-scale value is divided
by 1000, a seconds-scale value is kept, zero yields null. -/
theorem expiry_threshold_rule_witness :
    updateExpireSeconds 20000000000 = some 20000000 ∧
    updateExpireSeconds 1700000000 = some 1700000000 ∧
    updateExpireSeconds 0 = none := by
  refine ⟨?_,
    (expiry_threshold_rule 1700000000).2.1 (by norm_num) (by norm_num),
    (expiry_threshold_rule 0).2.2.1 rfl⟩
  · rw [(expiry_threshold_rule 20000000000).1 (by norm_num)]
    norm_num

/-- C6 (code-bug evaluation): for the sqlite backend the regex only guards the
characters immediately adjacent to the marker, so a `%s` inside a quoted
string literal whose neighbours are not quote characters is rewritten to `?`,
corrupting the literal — only a `%s` directly hugging the quotes survives.
The other two backends pass the query through unmodified. -/
theorem sqlite_rewrite_corrupts_quoted_literal :
    executeQuery "sqlite" true
      ("SELECT * FROM t WHERE note = " ++ squote ++ "use %s here" ++ squote ++
        " AND id = %s") =
      "SELECT * FROM t WHERE note = " ++ squote ++ "use ? here" ++ squote ++
        " AND id = ?" ∧
    executeQuery "sqlite" true ("x = " ++ squote ++ "%s" ++ squote) =
      "x = " ++ squote ++ "%s" ++ squote ∧
    executeQuery "postgresql" true
      ("a " ++ squote ++ "%s" ++ squote ++ " b %s") =
      "a " ++ squote ++ "%s" ++ squote ++ " b %s" ∧
    executeQuery "mysql" true "a %s b" = "a %s b" := by
  decide

/-- C7: a canonical record with an empty email is counted as skipped and no
read or write against the target store is performed for it. -/
theorem empty_email_skipped_no_ops (r : ClientRecord)
    (existing : Option (Nat × Option ProxySettings)) (rand : Nat → Nat)
    (ssChoice trojanChoice : Nat → Fin 62) (admin_id : Nat)
    (group_id new_user_id : Option Nat) (outcome : RecordOutcome)
    (h : r.email = "") :
    processRecord r existing rand ssChoice trojanChoice admin_id group_id
      new_user_id outcome = (CounterTick.skipped, []) := by
  simp [processRecord, h]

/-- Witness for C7: a concrete empty-email record is skipped with no store
operations even though a matching user row exists. -/
theorem empty_email_skipped_no_ops_witness :
    processRecord ⟨"", "some-id", true, 5, 1, 2, 3⟩ (some (4, none))
      (fun _ => 0) (fun _ => (0 : Fin 62)) (fun _ => (0 : Fin 62)) 1
      (some 1) (some 9) RecordOutcome.ok = (CounterTick.skipped, []) :=
  empty_email_skipped_no_ops _ _ _ _ _ _ _ _ _ rfl

/-- C8 counterexample: a traffic total of 2^53 + 1 bytes does not round-trip
through GB in the program's double-precision arithmetic — the float division
by 2^30 rounds to even, extracting exactly 2^23 GB, and the write-back
multiplication then yields 2^53, not 2^53 + 1. -/
theorem quota_roundtrip_fails_beyond_double_precision :
    (extractClient ⟨some "a@x.com", some "some-id", none, none, none⟩
      (some ⟨0, 0, 0, 2 ^ 53 + 1⟩)).total_gb = 2 ^ 23 ∧
    insertTrafficLimit ((2 : Rat) ^ 23) = some (2 ^ 53) ∧
    ((2 : Rat) ^ 53 ≠ 2 ^ 53 + 1) := by
  refine ⟨?_, insertLimit_two_pow23, by norm_num⟩
  simp only [extractClient]
  rw [if_pos (by norm_num : ((2 : Rat) ^ 53 + 1) ≠ 0)]
  exact floatDiv_two_pow53_succ

/-- C8 (amended): a traffic-accounting total of exactly 2^30 bytes extracts
to total_quota_gb = 1, which writes back as data_limit = 2^30 bytes; more
generally the bytes-to-GB-and-back conversion round-trips for every non-zero
byte count up to 2^53, the range in which the double-precision division and
multiplication are exact. -/
theorem quota_gb_roundtrip_in_range (c : ClientJson) (t : TrafficRow) (n : Nat) :
    (t.total = 2 ^ 30 → (extractClient c (some t)).total_gb = 1) ∧
    insertTrafficLimit 1 = some (2 ^ 30) ∧
    updateTrafficLimit 1 = some (2 ^ 30) ∧
    (0 < n → n ≤ 2 ^ 53 →
      insertTrafficLimit (floatDiv (n : Rat) (1024 ^ 3)) = some (n : Rat)) := by
  refine ⟨?_, ?_, ?_, ?_⟩
  · intro h
    simp only [extractClient, h]
    rw [if_pos (by norm_num : (2 ^ 30 : Rat) ≠ 0)]
    exact floatDiv_gb_one
  · unfold insertTrafficLimit
    rw [if_pos (by norm_num : (1 : Rat) ≠ 0), floatMul_one_gb]
  · unfold updateTrafficLimit
    rw [if_pos (by norm_num : (1 : Rat) ≠ 0), floatMul_one_gb]
  · intro h0 h53
    have h30 : ((1024 : Rat) ^ 3) = (2 : Rat) ^ 30 := by norm_num
    have hq : floatDiv (n : Rat) (1024 ^ 3) = (n : Rat) / 2 ^ 30 := by
      unfold floatDiv
      rw [h30]
      exact roundToDouble_nat_div_pow30 n h0 h53
    have hne : (n : Rat) / 2 ^ 30 ≠ 0 := by
      refine div_ne_zero ?_ (by norm_num)
      exact_mod_cast h0.ne'
    rw [hq]
    unfold insertTrafficLimit
    rw [if_pos hne]
    congr 1
    unfold floatMul
    rw [h30, div_mul_cancel₀ _ (by norm_num : (2 : Rat) ^ 30 ≠ 0)]
    exact roundToDouble_natCast n h0 h53

/-- Witness for the amended C8: the 2^30-byte row extracts to exactly 1 GB,
and a 3-byte total (inside the exact range) round-trips. -/
theorem quota_gb_roundtrip_in_range_witness :
    (extractClient ⟨some "a@x.com", some "some-id", none, none, none⟩
      (some ⟨1, 2, 0, 2 ^ 30⟩)).total_gb = 1 ∧
    insertTrafficLimit (floatDiv ((3 : Nat) : Rat) (1024 ^ 3)) =
      some ((3 : Nat) : Rat) := by
  constructor
  · exact (quota_gb_roundtrip_in_range ⟨some "a@x.com", some "some-id", none,
      none, none⟩ ⟨1, 2, 0, 2 ^ 30⟩ 1).1 rfl
  · exact (quota_gb_roundtrip_in_range ⟨none, none, none, none, none⟩
      ⟨0, 0, 0, 0⟩ 3).2.2.2 (by norm_num) (by norm_num)

/-- C9 counterexample: on the connection-failure abort path the process exits
with code 1 without closing either store connection, refuting the claim that
every fatal abort path closes both connections before terminating. -/
theorem connection_failure_abort_skips_close :
    startupEvents false true = [RunEvent.exitProc 1] ∧
    RunEvent.closeXui ∉ startupEvents false true ∧
    RunEvent.closePasar ∉ startupEvents false true := by
  decide

/-- C9 (amended): on the no-administrator abort both store connections are
closed, in order, before the process exits with code 1; on the
connection-failure abort the process exits with code 1 without closing
either connection. -/
theorem abort_close_per_path (adminFound : Bool) :
    startupEvents true false =
      [RunEvent.closeXui, RunEvent.closePasar, RunEvent.exitProc 1] ∧
    startupEvents false adminFound = [RunEvent.exitProc 1] := by
  cases adminFound <;> exact ⟨rfl, rfl⟩

/-- C10: a legacy client JSON object lacking the enable field is treated as
enabled, so the resulting row status is active on both the update and the
insert path. -/
theorem missing_enable_defaults_active (c : ClientJson) (t : Option TrafficRow)
    (h : c.enable = none) :
    (extractClient c t).enable = true ∧
    updateStatus (extractClient c t).enable = "active" ∧
    insertStatus (extractClient c t).enable = "active" := by
  have he : (extractClient c t).enable = true := by
    cases t <;> simp [extractClient, h]
  exact ⟨he, by simp [updateStatus, he], by simp [insertStatus, he]⟩

/-- Witness for C10: a concrete client object without the enable field yields
an enabled record with status active. -/
theorem missing_enable_defaults_active_witness :
    (extractClient ⟨some "a@x.com", some "some-id", none, some 0, some 0⟩
      none).enable = true ∧
    updateStatus (extractClient ⟨some "a@x.com", some "some-id", none, some 0,
      some 0⟩ none).enable = "active" :=
  ⟨(missing_enable_defaults_active _ _ rfl).1,
   (missing_enable_defaults_active _ _ rfl).2.1⟩

end Migration
